import Mathlib

/-!
Verification of the RNAflux embedding and fluxmap domain-segmentation pipeline of
the bento spatial-transcriptomics toolkit (src/bento/tools/_flux.py).

The embedding models the numeric pipeline over exact rationals, with the NaN
propagation of IEEE floats tracked explicitly by an `Option` layer: `none` is NaN.
All quantities flowing through the flux pipeline are finite rationals or NaN, so
this captures the arithmetic of the source exactly on the inputs the claims are
about. External libraries (sklearn, minisom, kneed, rasterio) and the repository's
geometry layer (which is not part of the sources under review) enter the model as
explicit function bundles with stated contracts, mirroring the interface the
specification assigns to them.
-/

namespace Bento

/-- Python float values restricted to the rationals, with NaN tracked explicitly:
`none` is NaN. -/
abbrev PFloat := Option ℚ

/-- Division as numpy performs it inside flux: all divided quantities are
nonnegative neighbor counts, so a zero denominator forces a zero numerator and
the result of dividing by zero is NaN (0/0). -/
def pdiv (a b : ℚ) : PFloat := if b = 0 then none else some (a / b)

/-- Subtraction of a plain float from a possibly-NaN float; NaN propagates. -/
def psub (a : PFloat) (b : ℚ) : PFloat := a.map (fun x => x - b)

/-- Division of a possibly-NaN value by a plain positive scale; NaN propagates. -/
def pdivScale (a : PFloat) (s : ℚ) : PFloat := a.map (fun x => x / s)

/-- Models numpy.nan_to_num on a single value: NaN becomes exactly 0. -/
def nanToNum (a : PFloat) : ℚ := a.getD 0

/-- Models Python int() on the nonnegative floats it is applied to in flux:
truncation toward zero. -/
def pyInt (q : ℚ) : ℤ := Int.tdiv q.num q.den

/-- Models sklearn's guard for zero scales in StandardScaler
(a column scale of 0 is replaced by 1 before dividing). -/
def scaleOf (s : ℚ) : ℚ := if s = 0 then 1 else s

/-- Association list assignment with Python-dict semantics: replace the binding
if the key exists, append otherwise. -/
def alistSet {α : Type} : List (String × α) → String → α → List (String × α)
  | [], k, v => [(k, v)]
  | kv :: rest, k, v => if kv.fst = k then (k, v) :: rest else kv :: alistSet rest k v

/-- Association list lookup: first binding of the key. -/
def alistGet {α : Type} : List (String × α) → String → Option α
  | [], _ => none
  | kv :: rest, k => if kv.fst = k then some kv.snd else alistGet rest k

/-- Boolean test for a literal character run appearing at the start of another. -/
def charsStart : List Char → List Char → Bool
  | _, [] => true
  | [], _ :: _ => false
  | c :: cs, d :: ds => c = d && charsStart cs ds

/-- Models str.startswith, used for the "flux_embed_" and "fluxmap" column and
shape-name scans of _flux.py. -/
def strStarts (s pre : String) : Bool := charsStart s.data pre.data

/-- Characters after the last occurrence of the separator; models
x.split(sep)[-1] for the column-suffix sort key of fluxmap. -/
def lastSegAux (sep : Char) : List Char → List Char → List Char
  | acc, [] => acc.reverse
  | acc, c :: cs => if c = sep then lastSegAux sep [] cs else lastSegAux sep (c :: acc) cs

/-- Digit-string parse, accumulator form. -/
def digitsToNatAux : ℕ → List Char → Option ℕ
  | n, [] => some n
  | n, c :: cs => if c.isDigit then digitsToNatAux (10 * n + (c.toNat - 48)) cs else none

/-- Models int(name.split("_")[-1]), the numeric sort key fluxmap uses to order
the embedding columns; the real columns always end in digits, so the 0 default
for a parse failure is never exercised. -/
def embedIndexOf (name : String) : ℕ :=
  (digitsToNatAux 0 (lastSegAux '_' [] name.data)).getD 0

/-- Decimal digit character. -/
def natDigitChar (n : ℕ) : Char := Char.ofNat (48 + n)

/-- Decimal rendering, most significant digit first, with enough fuel. -/
def natToStrAux : ℕ → ℕ → List Char
  | 0, _ => []
  | fuel + 1, n =>
    if n < 10 then [natDigitChar n]
    else natToStrAux fuel (n / 10) ++ [natDigitChar (n % 10)]

/-- Decimal rendering of a natural number, as Python str() produces for the
flux_embed_ column suffixes. -/
def natToStr (n : ℕ) : String := String.mk (natToStrAux (n + 1) n)

/-- Insertion into a list sorted by a natural-number key (stable). -/
def insertByKey {α : Type} (key : α → ℕ) (x : α) : List α → List α
  | [] => [x]
  | y :: ys => if key x ≤ key y then x :: y :: ys else y :: insertByKey key x ys

/-- Stable sort by a natural-number key; models Python sorted(..., key=...). -/
def sortByKey {α : Type} (key : α → ℕ) : List α → List α
  | [] => []
  | x :: xs => insertByKey key x (sortByKey key xs)

/-- Cell values of the point tables: the flux pipeline stores numeric columns and
one string-valued color column. -/
inductive Val
  | num (q : ℚ)
  | str (s : String)
deriving DecidableEq

/-- A named-column table, modelling the dataframes the pipeline reads and
writes (column name to column values, joined by row identity). -/
structure Table where
  cols : List (String × List Val)
deriving DecidableEq

/-- Replace a column if present, append it otherwise. -/
def Table.setCol (t : Table) (name : String) (vs : List Val) : Table :=
  ⟨alistSet t.cols name vs⟩

/-- Set several columns in order. -/
def Table.setCols (t : Table) (pairs : List (String × List Val)) : Table :=
  pairs.foldl (fun a p => a.setCol p.fst p.snd) t

/-- Read a column by name. -/
def Table.getCol (t : Table) (name : String) : Option (List Val) :=
  alistGet t.cols name

/-- Numeric content of a cell value (the columns flux reads back are numeric). -/
def valNum : Val → ℚ
  | .num q => q
  | .str _ => 0

/-- The mutable spatial container as the flux pipeline touches it: named point
tables, named shape layers (their geometry abstracted as opaque values), and the
table's unstructured dataset-wide entries (.table.uns). -/
structure SData where
  points : List (String × Table)
  shapes : List (String × List Val)
  uns : List (String × List Val)
deriving DecidableEq

/-- Write a point table by key. -/
def SData.setPoints (s : SData) (k : String) (t : Table) : SData :=
  { s with points := alistSet s.points k t }

/-- Read a point table by key. -/
def SData.getPoints (s : SData) (k : String) : Option Table :=
  alistGet s.points k

/-- Write a dataset-wide uns entry. -/
def SData.setUns (s : SData) (k : String) (v : List Val) : SData :=
  { s with uns := alistSet s.uns k v }

/-- Read a dataset-wide uns entry. -/
def SData.getUns (s : SData) (k : String) : Option (List Val) :=
  alistGet s.uns k

/-- The raster point-table key derived from the instance key,
"{instance_key}_raster" in the source. -/
def rasterKeyOf (instanceKey : String) : String := instanceKey ++ "_raster"

/-! ## The flux embedding (function flux, _flux.py lines 28-235) -/

/-- Neighborhood method of flux: "knn" or "radius" (line 33). -/
inductive FluxMethod
  | knn
  | radius
deriving DecidableEq

/-- The neighborhood query handed to the neighbor-counting engine: either a
neighbor count (knn) or a resolved absolute radius. -/
inductive NeighborSpec
  | knn (n : Option ℕ)
  | ball (r : ℚ)
deriving DecidableEq

/-- Caller-facing parameters of flux (lines 28-40). -/
structure FluxParams where
  pointsKey : String
  instanceKey : String
  method : FluxMethod
  nNeighbors : Option ℕ
  radius : Option ℚ
  res : ℚ
  trainSize : ℚ
  randomState : ℕ
  recompute : Bool

/-- The fitted truncated SVD as flux consumes it: a per-row projection through
the one fitted basis, and the per-component explained-variance ratios. The
fitting algorithm itself is sklearn's; the model records what fit returned. -/
structure SvdModel where
  proj : List ℚ → List ℚ
  varianceRatio : List ℚ

/-- External collaborators of flux. colStd is the per-column scale
StandardScaler computes during fit (the square root of the nan-ignoring column
variance, irrational in general, hence abstracted); permOf is the random-state
permutation stream behind sklearn resample with replace=False; svdFit is
sklearn TruncatedSVD.fit; vec2color is the display-color derivation of the
source's vec2color helper, whose content no claim depends on. -/
structure FluxExt where
  colStd : List (List PFloat) → ℕ → ℚ
  permOf : ℕ → ℕ → List ℕ
  svdFit : ℕ → List (List ℚ) → Except String SvdModel
  vec2color : List (List ℚ) → List ℚ → List Val

/-- Input view of the dataset as flux reads it. countNeighbors is the per-cell
neighbor-count matrix ([pixels of that cell] x [genes]) returned by
_count_neighbors. Modelled from the spec: _count_neighbors (tools/_neighborhoods.py)
and the geometry accessors are not among the sources under review; per spec
section 4.1 the engine returns a sparse pixel-by-gene count matrix per cell.
meanRadius likewise stands for the mean cell radius that analyze_shapes and
get_shape_metadata produce (spec section 4.3 step 1), and raster for the
freshly rasterized x/y/cell grid table of the cell rasterizer (spec 4.2). -/
structure FluxInput where
  geneNames : List String
  cells : List ℕ
  cellCounts : ℕ → List ℚ
  countNeighbors : NeighborSpec → ℕ → List (List ℚ)
  meanRadius : ℚ
  raster : Table

/-- Radius resolution of flux (lines 86-101): no radius defaults to a quarter
of the mean cell radius; a radius at most 1 is taken as a fraction of the mean
cell radius; a larger radius is used literally. knn mode passes n_neighbors
through unchanged. -/
def resolveNeighborSpec (method : FluxMethod) (radiusArg : Option ℚ)
    (nNeighbors : Option ℕ) (meanRadius : ℚ) : NeighborSpec :=
  match method with
  | .knn => .knn nNeighbors
  | .radius =>
    match radiusArg with
    | none => .ball (meanRadius / 4)
    | some r => .ball (if r ≤ 1 then r * meanRadius else r)

/-- Normalization of a count row into proportions (lines 139 and 171): a zero
total makes every entry NaN (numpy 0/0). -/
def compositionRow (g : List ℚ) : List PFloat := g.map (fun c => pdiv c g.sum)

/-- Cell-level composition (lines 136-140): normalized per-gene counts with NaN
zero-filled. Normalizing the stacked matrix row-by-row equals normalizing each
cell's count row independently. -/
def cellComposition (counts : List ℚ) : List ℚ := (compositionRow counts).map nanToNum

/-- One pixel row of the centered flux (line 171-172): neighborhood composition
minus the owning cell's composition; NaN propagates. -/
def cfluxRow (g : List ℚ) (cellComp : List ℚ) : List PFloat :=
  List.zipWith psub (compositionRow g) cellComp

/-- Scaling of one row entry-by-entry against per-column scales, index-carrying
form. -/
def scaleRowAux (colScale : ℕ → ℚ) : ℕ → List PFloat → List PFloat
  | _, [] => []
  | j, x :: xs => pdivScale x (scaleOf (colScale j)) :: scaleRowAux colScale (j + 1) xs

/-- StandardScaler(with_mean=False).fit_transform of one cell's centered rows
(line 173): each column is divided by its scale with no mean subtraction, so a
zero entry stays exactly zero and NaN stays NaN. sklearn disregards NaN when
fitting and maintains it in transform. -/
def scaleNoCenter (colScale : ℕ → ℚ) (rows : List (List PFloat)) : List (List PFloat) :=
  rows.map (scaleRowAux colScale 0)

/-- The whole per-cell pipeline (lines 164-178) followed by the global NaN
zero-fill of line 183, which acts entrywise on the stacked sparse matrix and
hence cell-block by cell-block: composition, baseline subtraction, column
scaling, NaN to 0. -/
def cellFluxBlock (colStd : List (List PFloat) → ℕ → ℚ)
    (counts : List (List ℚ)) (cellComp : List ℚ) : List (List ℚ) :=
  let raw := counts.map (fun g => cfluxRow g cellComp)
  (scaleNoCenter (colStd raw) raw).map (fun row => row.map nanToNum)

/-- The stacked dataset-wide flux matrix (vstack of line 182 after the
nan_to_num of line 183): exactly the per-gene flux columns flux persists. -/
def fluxMatrix (inp : FluxInput) (ext : FluxExt) (spec : NeighborSpec) : List (List ℚ) :=
  (inp.cells.map (fun c =>
    cellFluxBlock ext.colStd (inp.countNeighbors spec c)
      (cellComposition (inp.cellCounts c)))).flatten

/-- Per-pixel total neighbor counts (line 167 concatenated at line 184). -/
def pixelCounts (inp : FluxInput) (spec : NeighborSpec) : List ℚ :=
  (inp.cells.map (fun c => (inp.countNeighbors spec c).map List.sum)).flatten

/-- The flux matrix as flux computes it for given parameters, with the
neighborhood spec resolved from the caller's method and radius. -/
def fluxM (ext : FluxExt) (inp : FluxInput) (p : FluxParams) : List (List ℚ) :=
  fluxMatrix inp ext (resolveNeighborSpec p.method p.radius p.nNeighbors inp.meanRadius)

/-- The SVD training row count of line 191: int(train_size * len(cells)) - a
fraction of the number of CELLS, used as a row count into the stacked
pixel-row matrix. -/
def fluxTrainCount (inp : FluxInput) (p : FluxParams) : ℕ :=
  (pyInt (p.trainSize * (inp.cells.length : ℚ))).toNat

/-- Models sklearn.utils.resample with replace=False (lines 192-197): the
random state determines a permutation of the rows; the first n are kept.
Asking for more rows than exist raises, as sklearn does. -/
def resampleNoReplace (perm : List ℕ) (xs : List (List ℚ)) (n : ℕ) :
    Except String (List (List ℚ)) :=
  if n ≤ xs.length then .ok ((perm.filterMap (fun i => xs.get? i)).take n)
  else .error "ValueError: cannot sample more rows than the population when replace is False"

/-- The rows the SVD is trained on. -/
def fluxTrainRows (ext : FluxExt) (inp : FluxInput) (p : FluxParams) : List (List ℚ) :=
  ((ext.permOf p.randomState (fluxM ext inp p).length).filterMap
    (fun i => (fluxM ext inp p).get? i)).take (fluxTrainCount inp p)

/-- The resample call of lines 192-197 on the stacked flux matrix. -/
def fluxTrainSet (ext : FluxExt) (inp : FluxInput) (p : FluxParams)
    (M : List (List ℚ)) : Except String (List (List ℚ)) :=
  resampleNoReplace (ext.permOf p.randomState M.length) M (fluxTrainCount inp p)

/-- The reduction stage of flux (lines 189-202): n_components = min(G-1, 10),
fit on the resampled training rows, then project every pixel row through the
one fitted basis. -/
def fluxSvdStage (ext : FluxExt) (inp : FluxInput) (p : FluxParams)
    (M : List (List ℚ)) : Except String (SvdModel × List (List ℚ)) :=
  match fluxTrainSet ext inp p M with
  | .error e => .error e
  | .ok tr =>
    match ext.svdFit (min (inp.geneNames.length - 1) 10) tr with
    | .error e => .error e
    | .ok m => .ok (m, M.map m.proj)

/-- The raster table the persisted columns are attached to. Modelled from the
spec: analyze_shapes(..., "raster", recompute=recompute) is not among the
sources under review; per spec section 4.2 it regenerates the grid in full on
recompute and keeps an existing raster table otherwise. -/
def fluxBaseTable (inp : FluxInput) (p : FluxParams) (s : SData) : Table :=
  match s.getPoints (rasterKeyOf p.instanceKey), p.recompute with
  | some t, false => t
  | _, _ => inp.raster

/-- The computing body of flux (lines 86-235, after the early-return gate):
resolve the neighborhood, build the stacked flux matrix and per-pixel counts,
reduce through the SVD stage, then persist per-pixel gene columns, embedding
columns and the color column on the raster table, and the dataset-wide
variance ratios, counts and gene list in uns. -/
def fluxBody (ext : FluxExt) (inp : FluxInput) (p : FluxParams) (s : SData) :
    Except String SData :=
  let M := fluxM ext inp p
  let dens := pixelCounts inp (resolveNeighborSpec p.method p.radius p.nNeighbors inp.meanRadius)
  match fluxSvdStage ext inp p M with
  | .error e => .error e
  | .ok me =>
    let t0 := fluxBaseTable inp p s
    let t1 := t0.setCols (inp.geneNames.mapIdx
      (fun j g => (g, M.map (fun r => Val.num (r.getD j 0)))))
    let width := (me.snd.headD []).length
    let t2 := t1.setCols ((List.range width).map
      (fun i => ("flux_embed_" ++ natToStr i, me.snd.map (fun r => Val.num (r.getD i 0)))))
    let t3 := t2.setCol "flux_color" (ext.vec2color me.snd dens)
    let s1 := s.setPoints (rasterKeyOf p.instanceKey) t3
    let s2 := s1.setUns "flux_variance_ratio" (me.fst.varianceRatio.map Val.num)
    let s3 := s2.setUns "flux_counts" (dens.map Val.num)
    let s4 := s3.setUns "flux_genes" (inp.geneNames.map Val.str)
    .ok s4

/-- The early-return gate of flux (lines 79-84): the call is a no-op exactly
when the raster point table already exists with more than 3 columns and
recompute was not requested. No parameters and no other state enter the test. -/
def fluxGateHit (s : SData) (instanceKey : String) (recompute : Bool) : Bool :=
  match s.getPoints (rasterKeyOf instanceKey) with
  | some t => decide (3 < t.cols.length) && !recompute
  | none => false

/-- The flux entry point: the gate, then the computing body. -/
def flux (ext : FluxExt) (inp : FluxInput) (p : FluxParams) (s : SData) :
    Except String SData :=
  if fluxGateHit s p.instanceKey p.recompute then .ok s else fluxBody ext inp p s

/-- Success test for a fallible call. -/
def exceptOk {ε α : Type} : Except ε α → Bool
  | .ok _ => true
  | .error _ => false

/-- Contract of the resample permutation stream: for each seed and length it is
a permutation of the row indices. -/
def PermOk (perm : ℕ → ℕ → List ℕ) : Prop :=
  ∀ seed len, List.Perm (perm seed len) (List.range len)

/-- Contract of sklearn TruncatedSVD.fit: it succeeds whenever at least one
component is requested. -/
def SvdFitOk (fit : ℕ → List (List ℚ) → Except String SvdModel) : Prop :=
  ∀ n tr, 1 ≤ n → ∃ m, fit n tr = .ok m

/-! ## The fluxmap domain clusterer (function fluxmap, _flux.py lines 273-487) -/

/-- A trained self-organizing map as fluxmap consumes it: MiniSom(1, k, dim)
reduced to its winner query (the second coordinate of the winning unit of a
1-by-k map, the nearest-prototype unit index) and its quantization error on a
supplied data set. -/
structure SomModel where
  winner : List ℚ → ℕ
  quantError : List (List ℚ) → ℚ

/-- Caller-facing parameters of fluxmap (lines 273-283). The int and range
forms of n_clusters are already normalized into a list (lines 333-337); the
plot_error flag only produces a plot and is omitted. -/
structure FluxmapParams where
  pointsKey : String
  instanceKey : String
  nClusters : List ℕ
  numIterations : ℕ
  trainSize : ℚ
  res : ℚ
  randomState : ℕ

/-- External collaborators of fluxmap. somTrain is MiniSom construction plus
random_weights_init and train for a given k, input dimension, iteration count
and seed; knee is KneeLocator(..., curve="convex", direction="decreasing").elbow;
drawWith is the random index stream behind sklearn resample with its default
replace=True; domainShapes is the per-cell raster-to-polygon vectorization
(lines 399-455, rasterio/shapely); sjoinPoints and sjoinShapes are the
geometry layer's spatial joins. Modelled from the spec: the last three are
library or geometry-layer code outside the sources under review (spec section
4.4 steps 8-9 and section 6). -/
structure FluxmapExt where
  somTrain : ℕ → ℕ → ℕ → ℕ → List (List ℚ) → SomModel
  knee : List ℕ → List ℚ → Option ℕ
  drawWith : ℕ → ℕ → ℕ → List ℕ
  domainShapes : ℚ → Table → List (String × List Val)
  sjoinPoints : SData → List String → String → SData
  sjoinShapes : SData → String → List String → SData

/-- The outcome fluxmap reports: either the printed no-elbow failure with the
state left untouched, or an assignment of every pixel to a domain label under
the winning cluster count. -/
inductive FluxmapOutcome
  | noElbow (msg : String)
  | assigned (bestK : ℕ) (labels : List ℕ)
deriving DecidableEq

/-- What a fluxmap call computed on its way to its outcome: the SOM training
set and the per-candidate-k quantization errors fed to the elbow detector. -/
structure FluxmapReport where
  trainSet : List (List ℚ)
  quantErrors : List ℚ
  outcome : FluxmapOutcome
deriving DecidableEq

/-- The message printed when no elbow is found (line 375). -/
def noElbowMsg : String := "No elbow found. Rerun with a fixed k or a different range."

/-- Rows of a named-column numeric block, modelling DataFrame.to_numpy on
equal-length columns. -/
def colsToRows (cols : List (List ℚ)) : List (List ℚ) :=
  (List.range (cols.headD []).length).map (fun i => cols.map (fun col => col.getD i 0))

/-- Keep the columns whose name passes the test, in table order. -/
def filterCols : List (String × List Val) → (String → Bool) → List (String × List Val)
  | [], _ => []
  | kv :: rest, p => if p kv.fst then kv :: filterCols rest p else filterCols rest p

/-- The pixel-embedding rows fluxmap reads back (lines 327-331): the
flux_embed_ columns sorted by their numeric suffix, one row per raster pixel. -/
def fluxEmbedRows (t : Table) : List (List ℚ) :=
  colsToRows ((sortByKey (fun c => embedIndexOf c.fst)
    (filterCols t.cols (fun n => strStarts n "flux_embed_"))).map
      (fun c => c.snd.map valNum))

/-- Draw rows at the given indices; an out-of-range index contributes nothing
(the contract below rules that out). -/
def sampleRows (draws : List ℕ) (xs : List (List ℚ)) : List (List ℚ) :=
  draws.filterMap (fun i => xs.get? i)

/-- The SOM training set (lines 342-349): the full pixel-embedding set when
train_size is 1, otherwise a resample of int(train_size * n_pixels) rows drawn
by sklearn resample with its DEFAULT replace=True - the call at line 345 does
not pass replace=False, so indices may repeat. -/
def fluxmapTrainOf (ext : FluxmapExt) (p : FluxmapParams) (E : List (List ℚ)) :
    List (List ℚ) :=
  if p.trainSize = 1 then E
  else sampleRows (ext.drawWith p.randomState
    (pyInt (p.trainSize * (E.length : ℚ))).toNat E.length) E

/-- The quantization-error sequence of the candidate loop (lines 354-361): for
each candidate k, a SOM is trained on the training set and its quantization
error is evaluated against E, the data handed to this function. -/
def fluxmapErrors (ext : FluxmapExt) (p : FluxmapParams)
    (E train : List (List ℚ)) : List ℚ :=
  p.nClusters.map (fun k =>
    (ext.somTrain k (train.headD []).length p.numIterations p.randomState train).quantError E)

/-- The assignment and persistence tail of fluxmap (lines 382-487): winner
index per pixel through the best map, +1 shift (0 stays reserved for
background), label column written to the raster table, old fluxmap shape
layers deleted and fresh ones written, stale fluxmap columns dropped from the
transcript table, then the two spatial joins. np.ravel_multi_index raises when
a winner index reaches best_k, so a successful run never stores a label above
best_k. -/
def fluxmapAssign (ext : FluxmapExt) (p : FluxmapParams) (s : SData) (t : Table)
    (E train : List (List ℚ)) (errs : List ℚ) (bk : ℕ) :
    Except String (SData × FluxmapReport) :=
  let som := ext.somTrain bk (train.headD []).length p.numIterations p.randomState train
  let winners := E.map som.winner
  if winners.any (fun j => bk ≤ j) then
    .error "ValueError: invalid entry in coordinates array"
  else
    let labels : List ℕ := winners.map (fun j => j + 1)
    let t1 := t.setCol "fluxmap" (labels.map (fun l => Val.num (l : ℚ)))
    let s1 := s.setPoints (rasterKeyOf p.instanceKey) t1
    let newShapes := ext.domainShapes p.res t1
    let s2 : SData := { s1 with
      shapes := (s1.shapes.filter (fun kv => !(strStarts kv.fst "fluxmap"))) ++ newShapes }
    match s2.getPoints p.pointsKey with
    | none => .error "KeyError: transcript points table missing"
    | some tp =>
      let s3 := s2.setPoints p.pointsKey
        ⟨filterCols tp.cols (fun n => !(strStarts n "fluxmap"))⟩
      let s4 := ext.sjoinPoints s3 (newShapes.map Prod.fst) p.pointsKey
      let s5 := ext.sjoinShapes s4 p.instanceKey (newShapes.map Prod.fst)
      .ok (s5, ⟨train, errs, .assigned bk labels⟩)

/-- The fluxmap entry point (lines 273-487): read the raster table, require the
flux embedding, validate train_size, build the training set, train one SOM per
candidate k recording quantization errors on the full pixel set, pick the best
k by the elbow detector when more than one candidate was tried (returning with
the state untouched when no elbow is found), then assign and persist. -/
def fluxmap (ext : FluxmapExt) (p : FluxmapParams) (s : SData) :
    Except String (SData × FluxmapReport) :=
  match s.getPoints (rasterKeyOf p.instanceKey) with
  | none => .error "KeyError: raster points table missing"
  | some t =>
    if (t.getCol "flux_embed_0").isNone then
      .error "Flux embedding has not been computed. Run bento.tl.flux() first."
    else if 1 < p.trainSize then
      .error "train_size must be less than 1."
    else
      let E := fluxEmbedRows t
      let train := fluxmapTrainOf ext p E
      let errs := fluxmapErrors ext p E train
      if 1 < p.nClusters.length then
        match ext.knee p.nClusters errs with
        | none => .ok (s, ⟨train, errs, .noElbow noElbowMsg⟩)
        | some bk => fluxmapAssign ext p s t E train errs bk
      else
        match p.nClusters with
        | [] => .error "IndexError: list index out of range"
        | k :: _ => fluxmapAssign ext p s t E train errs k

/-- Contract of the with-replacement index stream behind sklearn resample's
default: n indices are drawn, each within range; repeats are allowed. -/
def DrawOk (draw : ℕ → ℕ → ℕ → List ℕ) : Prop :=
  ∀ seed n len, (draw seed n len).length = n ∧
    ∀ i ∈ draw seed n len, 0 < len → i < len

/-- Contract of the geometry layer's sjoin_points: it writes domain-membership
columns onto the named transcript table and leaves every other point table
alone (spec section 4.4 step 9). -/
def SjoinPointsOk (f : SData → List String → String → SData) : Prop :=
  ∀ s ks pk k2, k2 ≠ pk → (f s ks pk).getPoints k2 = s.getPoints k2

/-- Contract of the geometry layer's sjoin_shapes: it relates shape layers to
cells and leaves the point tables alone (spec section 4.4 step 9). -/
def SjoinShapesOk (f : SData → String → List String → SData) : Prop :=
  ∀ s ik ks k2, (f s ik ks).getPoints k2 = s.getPoints k2

/-! ## Concrete instances used by witnesses and counterexamples -/

/-- A concrete external bundle for exercising flux on closed inputs: identity
permutation stream, unit column scales, an SVD that keeps the first n
coordinates, and a constant color. -/
def extId : FluxExt :=
  { colStd := fun _ _ => 1
    permOf := fun _ len => List.range len
    svdFit := fun n _ => .ok ⟨fun r => r.take n, List.replicate n 0⟩
    vec2color := fun embed _ => embed.map (fun _ => Val.str "#000000ff") }

/-- A minimal concrete dataset for flux: one cell, three genes, two raster
pixels; pixel neighborhoods see one transcript of gene 0 and one of gene 1. -/
def cInp : FluxInput :=
  { geneNames := ["g0", "g1", "g2"]
    cells := [0]
    cellCounts := fun _ => [2, 1, 1]
    countNeighbors := fun _ _ => [[1, 0, 0], [0, 1, 0]]
    meanRadius := 8
    raster := ⟨[("x", [Val.num 0, Val.num 1]), ("y", [Val.num 0, Val.num 0]),
      ("cell_boundaries", [Val.num 0, Val.num 0])]⟩ }

/-- Default-like flux parameters for the concrete runs. -/
def cP : FluxParams :=
  { pointsKey := "transcripts"
    instanceKey := "cell_boundaries"
    method := .radius
    nNeighbors := none
    radius := some 2
    res := 1
    trainSize := 1
    randomState := 11
    recompute := false }

/-- An empty container: nothing computed yet. -/
def cS : SData := ⟨[], [], []⟩

/-- The raster table the first concrete flux run produces: three gene flux
columns, two embedding columns and the color column after the coordinates. -/
def cT1 : Table :=
  ⟨[("x", [Val.num 0, Val.num 1]),
    ("y", [Val.num 0, Val.num 0]),
    ("cell_boundaries", [Val.num 0, Val.num 0]),
    ("g0", [Val.num (1/2), Val.num (-1/2)]),
    ("g1", [Val.num (-1/4), Val.num (3/4)]),
    ("g2", [Val.num (-1/4), Val.num (-1/4)]),
    ("flux_embed_0", [Val.num (1/2), Val.num (-1/2)]),
    ("flux_embed_1", [Val.num (-1/4), Val.num (3/4)]),
    ("flux_color", [Val.str "#000000ff", Val.str "#000000ff"])]⟩

/-- The state the first concrete flux run produces. -/
def cS1 : SData :=
  ⟨[("cell_boundaries_raster", cT1)],
   [],
   [("flux_variance_ratio", [Val.num 0, Val.num 0]),
    ("flux_counts", [Val.num 1, Val.num 1]),
    ("flux_genes", [Val.str "g0", Val.str "g1", Val.str "g2"])]⟩

/-- A variant of the concrete dataset whose second raster pixel has an empty
neighborhood (all-zero neighbor-count row). -/
def cInp0 : FluxInput :=
  { cInp with countNeighbors := fun _ _ => [[1, 0, 0], [0, 0, 0]] }

/-- The SVD model the concrete externals fit over a three-gene vocabulary. -/
def cSvd : SvdModel := ⟨fun r => r.take 2, List.replicate 2 0⟩

/-! ## Concrete fluxmap instances for witnesses and counterexamples -/

/-- A concrete external bundle for exercising fluxmap on closed inputs: a SOM
whose winner is always unit 0 with zero quantization error, an elbow detector
that never finds an elbow, an index stream that always draws row 0, one
constant shape layer, and identity joins. -/
def extFm : FluxmapExt :=
  { somTrain := fun _ _ _ _ _ => ⟨fun _ => 0, fun _ => 0⟩
    knee := fun _ _ => none
    drawWith := fun _ n _ => List.replicate n 0
    domainShapes := fun _ _ => [("fluxmap1", [Val.num 0])]
    sjoinPoints := fun s _ _ => s
    sjoinShapes := fun s _ _ => s }

/-- A computed raster table with one embedding column over three pixels. -/
def cFmT : Table :=
  ⟨[("x", [Val.num 0, Val.num 1, Val.num 2]),
    ("y", [Val.num 0, Val.num 0, Val.num 0]),
    ("cell_boundaries", [Val.num 0, Val.num 0, Val.num 0]),
    ("flux_embed_0", [Val.num 0, Val.num 1, Val.num 2])]⟩

/-- A container holding the raster table and a transcripts table. -/
def cFmS : SData :=
  ⟨[("transcripts", ⟨[("x", [Val.num 5])]⟩), ("cell_boundaries_raster", cFmT)], [], []⟩

/-- fluxmap parameters trying two candidate counts with a 2/3 train size. -/
def cFmP : FluxmapParams :=
  ⟨"transcripts", "cell_boundaries", [2, 3], 5, 2/3, 1, 7⟩

/-- fluxmap parameters with a single fixed candidate count. -/
def cFmP1 : FluxmapParams :=
  ⟨"transcripts", "cell_boundaries", [2], 5, 2/3, 1, 7⟩

/-- The raster table after the successful concrete assignment. -/
def cFmT2 : Table :=
  ⟨[("x", [Val.num 0, Val.num 1, Val.num 2]),
    ("y", [Val.num 0, Val.num 0, Val.num 0]),
    ("cell_boundaries", [Val.num 0, Val.num 0, Val.num 0]),
    ("flux_embed_0", [Val.num 0, Val.num 1, Val.num 2]),
    ("fluxmap", [Val.num 1, Val.num 1, Val.num 1])]⟩

/-- The container after the successful concrete fluxmap run. -/
def cFmS2 : SData :=
  ⟨[("transcripts", ⟨[("x", [Val.num 5])]⟩), ("cell_boundaries_raster", cFmT2)],
   [("fluxmap1", [Val.num 0])], []⟩

theorem alistGet_set_self {α : Type} (l : List (String × α)) (k : String) (v : α) :
    alistGet (alistSet l k v) k = some v := by
  induction l with
  | nil => simp [alistSet, alistGet]
  | cons kv rest ih =>
    by_cases h : kv.fst = k
    · simp [alistSet, h, alistGet]
    · simp [alistSet, h, alistGet, ih]

theorem alistGet_set_ne {α : Type} (l : List (String × α)) (k k2 : String) (v : α)
    (h : k2 ≠ k) : alistGet (alistSet l k v) k2 = alistGet l k2 := by
  have hne : ¬ k = k2 := fun hh => h hh.symm
  induction l with
  | nil => simp [alistSet, alistGet, hne]
  | cons kv rest ih =>
    by_cases hk : kv.fst = k
    · subst hk
      simp [alistSet, alistGet, hne]
    · by_cases hk2 : kv.fst = k2
      · simp [alistSet, hk, alistGet, hk2, h]
      · simp [alistSet, hk, alistGet, hk2, ih]

theorem getCol_setCol_self (t : Table) (name : String) (vs : List Val) :
    (t.setCol name vs).getCol name = some vs := by
  simp [Table.setCol, Table.getCol, alistGet_set_self]

theorem getPoints_setPoints_self (s : SData) (k : String) (t : Table) :
    (s.setPoints k t).getPoints k = some t := by
  simp [SData.setPoints, SData.getPoints, alistGet_set_self]

theorem getPoints_setPoints_ne (s : SData) (k k2 : String) (t : Table) (h : k2 ≠ k) :
    (s.setPoints k t).getPoints k2 = s.getPoints k2 := by
  simp [SData.setPoints, SData.getPoints, alistGet_set_ne _ _ _ _ h]

theorem getUns_setUns_self (s : SData) (k : String) (v : List Val) :
    (s.setUns k v).getUns k = some v := by
  simp [SData.setUns, SData.getUns, alistGet_set_self]

theorem getUns_setUns_ne (s : SData) (k k2 : String) (v : List Val) (h : k2 ≠ k) :
    (s.setUns k v).getUns k2 = s.getUns k2 := by
  simp [SData.setUns, SData.getUns, alistGet_set_ne _ _ _ _ h]

theorem getUns_setPoints (s : SData) (k k2 : String) (t : Table) :
    (s.setPoints k t).getUns k2 = s.getUns k2 := rfl

/-! ## General lemmas about the model -/

theorem filterMap_get?_range {α : Type} (l : List α) :
    (List.range l.length).filterMap (fun i => l.get? i) = l := by
  induction l with
  | nil => simp
  | cons a t ih =>
    simp only [List.length_cons, List.range_succ_eq_map, List.filterMap_cons,
      List.filterMap_map, List.get?_cons_zero]
    have hc : ((fun i => (a :: t).get? i) ∘ Nat.succ) = fun i => t.get? i := by
      funext i
      simp
    rw [hc, ih]

theorem perm_filterMap_get? {α : Type} (l : List α) (p : List ℕ)
    (hp : List.Perm p (List.range l.length)) :
    List.Perm (p.filterMap (fun i => l.get? i)) l := by
  have h := hp.filterMap (fun i => l.get? i)
  rw [filterMap_get?_range] at h
  exact h

theorem length_filterMap_get? {α : Type} (l : List α) (draws : List ℕ)
    (h : ∀ i ∈ draws, i < l.length) :
    (draws.filterMap (fun i => l.get? i)).length = draws.length := by
  induction draws with
  | nil => simp
  | cons d rest ih =>
    have hd : d < l.length := h d (by simp)
    have ha : l.get? d = some (l.get ⟨d, hd⟩) := List.get?_eq_get hd
    simp only [List.filterMap_cons, ha, List.length_cons]
    rw [ih (fun i hi => h i (by simp [hi]))]

theorem mem_filterMap_get? {α : Type} (l : List α) (draws : List ℕ) (x : α)
    (hx : x ∈ draws.filterMap (fun i => l.get? i)) : x ∈ l := by
  rw [List.mem_filterMap] at hx
  obtain ⟨i, _, hi⟩ := hx
  exact List.get?_mem hi

theorem fluxGateHit_recompute_true (s : SData) (ik : String) :
    fluxGateHit s ik true = false := by
  unfold fluxGateHit
  cases s.getPoints (rasterKeyOf ik) <;> simp

/-! ## Claims about flux -/

/-- C4: in flux with method "radius", a caller radius above 1 is used as the
neighborhood radius literally; a radius at most 1 yields radius times the mean
cell radius; an absent radius defaults to 0.25 times the mean cell radius. -/
theorem flux_radius_resolution (meanR r : ℚ) (nn : Option ℕ) :
    (1 < r → resolveNeighborSpec .radius (some r) nn meanR = .ball r) ∧
    (r ≤ 1 → resolveNeighborSpec .radius (some r) nn meanR = .ball (r * meanR)) ∧
    resolveNeighborSpec .radius none nn meanR = .ball (meanR / 4) := by
  refine ⟨fun h => ?_, fun h => ?_, rfl⟩
  · simp [resolveNeighborSpec, not_le.mpr h]
  · simp [resolveNeighborSpec, h]

/-- Witness for C4: with mean cell radius 8, a radius of 3 is used literally, a
radius of one half resolves to 4, and no radius resolves to 2. -/
theorem flux_radius_resolution_witness :
    resolveNeighborSpec .radius (some 3) none 8 = .ball 3 ∧
    resolveNeighborSpec .radius (some (1/2)) none 8 = .ball 4 ∧
    resolveNeighborSpec .radius none none 8 = .ball 2 := by
  refine ⟨(flux_radius_resolution 8 3 none).1 (by norm_num), ?_, ?_⟩
  · rw [(flux_radius_resolution 8 (1/2) none).2.1 (by norm_num)]
    norm_num
  · rw [(flux_radius_resolution 8 3 none).2.2]
    norm_num

/-- C10: the flux recompute gate is parameter-blind: whenever the raster point
table exists with more than 3 columns and recompute is false, flux returns at
once with the whole state unchanged, for every choice of method, n_neighbors,
radius, res and train_size; no record of any previous parameters exists in the
state or is consulted by the gate. -/
theorem flux_gate_parameter_blind (ext : FluxExt) (inp : FluxInput) (s : SData)
    (pk ik : String) (t : Table)
    (ht : s.getPoints (rasterKeyOf ik) = some t)
    (hc : 3 < t.cols.length) :
    ∀ (method : FluxMethod) (nn : Option ℕ) (radius : Option ℚ) (res ts : ℚ) (seed : ℕ),
      flux ext inp ⟨pk, ik, method, nn, radius, res, ts, seed, false⟩ s = .ok s := by
  intro method nn radius res ts seed
  simp [flux, fluxGateHit, ht, hc]

/-- Success of the flux body whenever the vocabulary has at least two genes and
the resample row budget fits the stacked matrix: the pipeline contains no other
failure point. -/
theorem fluxBody_isOk (ext : FluxExt) (inp : FluxInput) (p : FluxParams) (s : SData)
    (hsvd : SvdFitOk ext.svdFit)
    (hG : 2 ≤ inp.geneNames.length)
    (hn : fluxTrainCount inp p ≤ (fluxM ext inp p).length) :
    ∃ s2, fluxBody ext inp p s = .ok s2 := by
  have htr : fluxTrainSet ext inp p (fluxM ext inp p)
      = .ok (fluxTrainRows ext inp p) := by
    simp [fluxTrainSet, resampleNoReplace, hn, fluxTrainRows]
  have hmin : 1 ≤ min (inp.geneNames.length - 1) 10 := by omega
  obtain ⟨m, hm⟩ := hsvd _ (fluxTrainRows ext inp p) hmin
  have hstage : fluxSvdStage ext inp p (fluxM ext inp p)
      = .ok (m, (fluxM ext inp p).map m.proj) := by
    simp [fluxSvdStage, htr, hm]
  simp only [fluxBody]
  rw [hstage]
  exact ⟨_, rfl⟩

/-- C8: after a successful first flux run whose raster table passes the gate
threshold, a second call with recompute false is a no-op: it returns with the
state unchanged, every persisted field identical; and any call with recompute
true bypasses the gate and recomputes the persisted fields in full through the
body. -/
theorem flux_recompute_gate (ext : FluxExt) (inp : FluxInput) (p : FluxParams)
    (s s1 : SData)
    (hrec : p.recompute = false)
    (h1 : flux ext inp p s = .ok s1)
    (hgate : fluxGateHit s1 p.instanceKey false = true) :
    flux ext inp p s1 = .ok s1 ∧
    ∀ s2 : SData, flux ext inp { p with recompute := true } s2
      = fluxBody ext inp { p with recompute := true } s2 := by
  constructor
  · simp [flux, hrec, hgate]
  · intro s2
    simp [flux, fluxGateHit_recompute_true]

/-- C9 (amended): flux performs no gene-vocabulary validation: for every
vocabulary of at least two genes - in particular throughout 2 <= G < 5, where
the claimed fail-fast error would have to fire - the call proceeds, handing the
SVD stage min(G-1, 10) components, and succeeds whenever the resample row
budget fits the stacked matrix. -/
theorem flux_small_vocab_proceeds (ext : FluxExt) (inp : FluxInput)
    (p : FluxParams) (s : SData)
    (hsvd : SvdFitOk ext.svdFit)
    (hG : 2 ≤ inp.geneNames.length)
    (hn : fluxTrainCount inp p ≤ (fluxM ext inp p).length) :
    exceptOk (flux ext inp p s) = true := by
  by_cases hg : fluxGateHit s p.instanceKey p.recompute
  · simp [flux, hg, exceptOk]
  · obtain ⟨s2, h2⟩ := fluxBody_isOk ext inp p s hsvd hG hn
    simp [flux, hg, h2, exceptOk]

theorem extId_permOk : PermOk extId.permOf := fun _ _ => List.Perm.refl _

theorem extId_svdOk : SvdFitOk extId.svdFit := fun _n _tr _h => ⟨_, rfl⟩

/-- Witness for C10: on a state holding a computed raster table, the gate
short-circuits for an arbitrary different parameter combination (knn method,
other resolution, half train size), returning the state unchanged. -/
theorem flux_gate_parameter_blind_witness :
    flux extId cInp ⟨"transcripts", "cell_boundaries", .knn, some 5, none, 2, 1/2, 3, false⟩ cS1
      = .ok cS1 :=
  flux_gate_parameter_blind extId cInp cS1 "transcripts" "cell_boundaries" cT1
    (by
      have hk : rasterKeyOf "cell_boundaries" = "cell_boundaries_raster" := by decide
      simp [cS1, SData.getPoints, alistGet, hk])
    (by decide) .knn (some 5) none 2 (1/2) 3

/-- Evaluation of the first concrete flux run from the empty container. -/
theorem flux_first_run : flux extId cInp cP cS = .ok cS1 := by
  have hk : rasterKeyOf "cell_boundaries" = "cell_boundaries_raster" := by decide
  have he0 : "flux_embed_" ++ natToStr 0 = "flux_embed_0" := by decide
  have he1 : "flux_embed_" ++ natToStr 1 = "flux_embed_1" := by decide
  norm_num [flux, fluxGateHit, cS, cInp, cP, extId, cS1, cT1, fluxBody, fluxM,
    fluxMatrix, fluxSvdStage, fluxTrainSet, fluxTrainCount, resampleNoReplace,
    resolveNeighborSpec, cellFluxBlock, cellComposition, compositionRow,
    cfluxRow, pdiv, psub, pdivScale, nanToNum, scaleNoCenter, scaleRowAux,
    scaleOf, pixelCounts, pyInt, fluxBaseTable, Table.setCols, Table.setCol,
    alistSet, SData.setPoints, SData.setUns, SData.getPoints, alistGet,
    hk, he0, he1, List.range_succ, List.getD, List.headD]
  simp

/-- Witness for C8: the concrete first run passes the gate threshold, the second
call with recompute false returns its input state unchanged, and any call with
recompute true goes through the recomputing body. -/
theorem flux_recompute_gate_witness :
    flux extId cInp cP cS1 = .ok cS1 ∧
    ∀ s2 : SData, flux extId cInp { cP with recompute := true } s2
      = fluxBody extId cInp { cP with recompute := true } s2 :=
  flux_recompute_gate extId cInp cP cS cS1 rfl flux_first_run (by decide)

/-- C9 counterexample: a concrete flux run over a three-gene vocabulary (G < 5)
returns successfully, so flux does not fail fast with a descriptive error for
small vocabularies. -/
theorem flux_no_min_gene_check_cex :
    cInp.geneNames.length = 3 ∧ exceptOk (flux extId cInp cP cS) = true := by
  refine ⟨by decide, ?_⟩
  rw [flux_first_run]
  rfl

/-! ## C3: zero neighborhoods persist as exactly zero flux vectors -/

theorem compositionRow_zero (G : ℕ) :
    compositionRow (List.replicate G (0 : ℚ)) = List.replicate G none := by
  simp [compositionRow, pdiv]

theorem zipWith_psub_none (l : List ℚ) :
    List.zipWith psub (List.replicate l.length none) l
      = List.replicate l.length none := by
  induction l with
  | nil => rfl
  | cons a t ih => simp [psub, List.replicate_succ, ih]

theorem cfluxRow_zero (comp : List ℚ) :
    cfluxRow (List.replicate comp.length 0) comp
      = List.replicate comp.length none := by
  rw [cfluxRow, compositionRow_zero, zipWith_psub_none]

theorem scaleRowAux_none (colScale : ℕ → ℚ) (j G : ℕ) :
    scaleRowAux colScale j (List.replicate G none) = List.replicate G none := by
  induction G generalizing j with
  | zero => rfl
  | succ n ih => simp [List.replicate_succ, scaleRowAux, pdivScale, ih]

theorem map_nanToNum_none (G : ℕ) :
    (List.replicate G (none : PFloat)).map nanToNum = List.replicate G 0 := by
  simp [nanToNum]

theorem cellFluxBlock_zero_row (colStd : List (List PFloat) → ℕ → ℚ)
    (counts : List (List ℚ)) (comp : List ℚ) (i : ℕ)
    (hrow : counts.get? i = some (List.replicate comp.length 0)) :
    (cellFluxBlock colStd counts comp).get? i
      = some (List.replicate comp.length 0) := by
  have hraw : (counts.map (fun g => cfluxRow g comp)).get? i
      = some (List.replicate comp.length none) := by
    rw [List.get?_map, hrow, Option.map_some', cfluxRow_zero]
  simp only [cellFluxBlock, scaleNoCenter]
  rw [List.get?_map, List.get?_map, hraw]
  simp only [Option.map_some', scaleRowAux_none, map_nanToNum_none]

/-- C3: a raster pixel whose neighborhood contains zero transcripts (an
all-zero neighbor-count row) has a flux vector that is exactly all-zero in the
stacked matrix flux persists as the per-gene columns: the 0/0 composition
normalization yields a NaN row, the baseline subtraction and the
centering-free unit-variance scaling keep it NaN (no shift is ever added), and
the global nan_to_num replaces it with exact zeros. -/
theorem flux_zero_neighborhood_zero (ext : FluxExt) (inp : FluxInput)
    (spec : NeighborSpec) (c i G : ℕ)
    (hG : (cellComposition (inp.cellCounts c)).length = G)
    (hrow : (inp.countNeighbors spec c).get? i = some (List.replicate G 0)) :
    (cellFluxBlock ext.colStd (inp.countNeighbors spec c)
      (cellComposition (inp.cellCounts c))).get? i
        = some (List.replicate G 0) ∧
    fluxMatrix inp ext spec = (inp.cells.map (fun c2 =>
      cellFluxBlock ext.colStd (inp.countNeighbors spec c2)
        (cellComposition (inp.cellCounts c2)))).flatten := by
  refine ⟨?_, rfl⟩
  subst hG
  exact cellFluxBlock_zero_row ext.colStd _ _ i hrow

/-- Witness for C3 at the concrete input: the empty-neighborhood pixel's
persisted flux row is exactly zero. -/
theorem flux_zero_neighborhood_zero_witness :
    (cellFluxBlock extId.colStd (cInp0.countNeighbors (.ball 2) 0)
      (cellComposition (cInp0.cellCounts 0))).get? 1
        = some (List.replicate 3 0) ∧
    fluxMatrix cInp0 extId (.ball 2) = (cInp0.cells.map (fun c2 =>
      cellFluxBlock extId.colStd (cInp0.countNeighbors (.ball 2) c2)
        (cellComposition (cInp0.cellCounts c2)))).flatten := by
  refine flux_zero_neighborhood_zero extId cInp0 (.ball 2) 0 1 3 ?_ ?_
  · norm_num [cInp0, cInp, cellComposition, compositionRow, pdiv, nanToNum]
  · norm_num [cInp0, cInp, List.replicate_succ]

/-! ## C1: what the SVD stage is actually trained on -/

/-- C1 (amended): the truncated SVD is fit once, with min(G-1, 10) components,
on a without-replacement resample of int(train_size * number-of-cells) rows of
the stacked per-pixel flux matrix - the training row budget is that fraction
of the CELL count, not of the pixel-row count, so train_size = 1 does not in
general train on all rows - and every pixel row is then projected through that
one fitted basis, with the explained-variance ratios persisted dataset-wide. -/
theorem flux_svd_train_spec (ext : FluxExt) (inp : FluxInput) (p : FluxParams)
    (m : SvdModel)
    (hperm : PermOk ext.permOf)
    (hn : fluxTrainCount inp p ≤ (fluxM ext inp p).length)
    (hfit : ext.svdFit (min (inp.geneNames.length - 1) 10)
      (fluxTrainRows ext inp p) = .ok m) :
    fluxTrainSet ext inp p (fluxM ext inp p) = .ok (fluxTrainRows ext inp p) ∧
    (fluxTrainRows ext inp p).length = fluxTrainCount inp p ∧
    List.Subperm (fluxTrainRows ext inp p) (fluxM ext inp p) ∧
    fluxSvdStage ext inp p (fluxM ext inp p)
      = .ok (m, (fluxM ext inp p).map m.proj) ∧
    ∀ s s2, fluxBody ext inp p s = .ok s2 →
      s2.getUns "flux_variance_ratio" = some (m.varianceRatio.map Val.num) := by
  have htr : fluxTrainSet ext inp p (fluxM ext inp p)
      = .ok (fluxTrainRows ext inp p) := by
    simp [fluxTrainSet, resampleNoReplace, hn, fluxTrainRows]
  have hperm2 : List.Perm ((ext.permOf p.randomState (fluxM ext inp p).length).filterMap
      (fun i => (fluxM ext inp p).get? i)) (fluxM ext inp p) := by
    refine perm_filterMap_get? _ _ ?_
    exact hperm p.randomState (fluxM ext inp p).length
  have hlen : (fluxTrainRows ext inp p).length = fluxTrainCount inp p := by
    rw [fluxTrainRows, List.length_take, hperm2.length_eq]
    exact min_eq_left hn
  have hsub : List.Subperm (fluxTrainRows ext inp p) (fluxM ext inp p) := by
    refine List.Subperm.trans ?_ hperm2.subperm
    exact (List.take_sublist _ _).subperm
  have hstage : fluxSvdStage ext inp p (fluxM ext inp p)
      = .ok (m, (fluxM ext inp p).map m.proj) := by
    simp [fluxSvdStage, htr, hfit]
  refine ⟨htr, hlen, hsub, hstage, ?_⟩
  intro s s2 hbody
  simp only [fluxBody] at hbody
  rw [hstage] at hbody
  simp only [Except.ok.injEq] at hbody
  subst hbody
  rw [getUns_setUns_ne _ _ _ _ (by decide), getUns_setUns_ne _ _ _ _ (by decide),
    getUns_setUns_self]

/-- Evaluation of the stacked flux matrix on the concrete dataset. -/
theorem cInp_M_eval :
    fluxM extId cInp cP = [[1/2, -1/4, -1/4], [-1/2, 3/4, -1/4]] := by
  norm_num [cInp, cP, fluxM, fluxMatrix, cellFluxBlock, cellComposition,
    compositionRow, cfluxRow, pdiv, psub, pdivScale, nanToNum, scaleNoCenter,
    scaleRowAux, scaleOf, resolveNeighborSpec, extId]

/-- The concrete training row budget: int(1 * 1 cell) = 1. -/
theorem cInp_trainCount : fluxTrainCount cInp cP = 1 := by
  norm_num [fluxTrainCount, pyInt, cInp, cP]

/-- The concrete training rows: the first (and only) sampled row. -/
theorem cInp_trainRows : fluxTrainRows extId cInp cP = [[1/2, -1/4, -1/4]] := by
  rw [fluxTrainRows, cInp_trainCount, cInp_M_eval]
  simp [extId, List.range_succ]

/-- Witness for C9 amended, at the concrete three-gene input. -/
theorem flux_small_vocab_proceeds_witness :
    exceptOk (flux extId cInp cP cS) = true := by
  refine flux_small_vocab_proceeds extId cInp cP cS extId_svdOk (by decide) ?_
  rw [cInp_trainCount, cInp_M_eval]
  simp

/-- C1 counterexample: in the concrete run with train_size = 1, the SVD
training set holds int(1 * number-of-cells) = 1 resampled row while the
stacked flux matrix has 2 pixel rows, refuting the reading that the training
subset comprises a train_size fraction of all rows (all rows at
train_size = 1). -/
theorem flux_svd_train_not_all_rows_cex :
    PermOk extId.permOf ∧
    cP.trainSize = 1 ∧
    (fluxM extId cInp cP).length = 2 ∧
    fluxTrainSet extId cInp cP (fluxM extId cInp cP) = .ok [[1/2, -1/4, -1/4]] ∧
    fluxTrainSet extId cInp cP (fluxM extId cInp cP) ≠ .ok (fluxM extId cInp cP) := by
  have htr : fluxTrainSet extId cInp cP (fluxM extId cInp cP)
      = .ok [[1/2, -1/4, -1/4]] := by
    have hn : fluxTrainCount cInp cP ≤ (fluxM extId cInp cP).length := by
      rw [cInp_trainCount, cInp_M_eval]
      simp
    have h1 : fluxTrainSet extId cInp cP (fluxM extId cInp cP)
        = .ok (fluxTrainRows extId cInp cP) := by
      simp [fluxTrainSet, resampleNoReplace, hn, fluxTrainRows]
    rw [h1, cInp_trainRows]
  refine ⟨extId_permOk, rfl, ?_, htr, ?_⟩
  · rw [cInp_M_eval]
    simp
  · rw [htr, cInp_M_eval]
    intro hcontra
    simp at hcontra

/-- Witness for C1 amended, at the concrete input: the stage trains the model
on the one resampled row and projects both pixel rows through it. -/
theorem flux_svd_train_spec_witness :
    fluxTrainSet extId cInp cP (fluxM extId cInp cP)
      = .ok (fluxTrainRows extId cInp cP) ∧
    (fluxTrainRows extId cInp cP).length = fluxTrainCount cInp cP ∧
    List.Subperm (fluxTrainRows extId cInp cP) (fluxM extId cInp cP) ∧
    fluxSvdStage extId cInp cP (fluxM extId cInp cP)
      = .ok (cSvd, (fluxM extId cInp cP).map cSvd.proj) ∧
    ∀ s s2, fluxBody extId cInp cP s = .ok s2 →
      s2.getUns "flux_variance_ratio" = some (cSvd.varianceRatio.map Val.num) := by
  refine flux_svd_train_spec extId cInp cP cSvd extId_permOk ?_ ?_
  · rw [cInp_trainCount, cInp_M_eval]
    simp
  · rfl

/-! ## Claims about fluxmap -/

/-- C2: when more than one candidate cluster count was tried and the elbow
detector finds no elbow, the whole fluxmap call terminates with the state
untouched - no fluxmap label column is written to the raster points, no
fluxmap shape layer is written or deleted - and the no-elbow message is
reported, with no silent fallback to any candidate k. -/
theorem fluxmap_no_elbow_aborts (ext : FluxmapExt) (p : FluxmapParams) (s : SData)
    (t : Table)
    (ht : s.getPoints (rasterKeyOf p.instanceKey) = some t)
    (hemb : (t.getCol "flux_embed_0").isSome)
    (hts : ¬ 1 < p.trainSize)
    (hlen : 1 < p.nClusters.length)
    (hknee : ext.knee p.nClusters (fluxmapErrors ext p (fluxEmbedRows t)
      (fluxmapTrainOf ext p (fluxEmbedRows t))) = none) :
    fluxmap ext p s = .ok (s, ⟨fluxmapTrainOf ext p (fluxEmbedRows t),
      fluxmapErrors ext p (fluxEmbedRows t) (fluxmapTrainOf ext p (fluxEmbedRows t)),
      .noElbow noElbowMsg⟩) := by
  obtain ⟨v, hv⟩ := Option.isSome_iff_exists.mp hemb
  simp [fluxmap, ht, hv, hts, hlen, hknee]

/-- Dispatch of a successful fluxmap call: either the no-elbow early return
with the state unchanged, or a successful assignment tail for some best k. -/
theorem fluxmap_ok_split (ext : FluxmapExt) (p : FluxmapParams) (s : SData)
    (s2 : SData) (rep : FluxmapReport) (t : Table)
    (ht : s.getPoints (rasterKeyOf p.instanceKey) = some t)
    (h : fluxmap ext p s = .ok (s2, rep)) :
    (s2 = s ∧ rep = ⟨fluxmapTrainOf ext p (fluxEmbedRows t),
        fluxmapErrors ext p (fluxEmbedRows t) (fluxmapTrainOf ext p (fluxEmbedRows t)),
        .noElbow noElbowMsg⟩) ∨
    ∃ bk, fluxmapAssign ext p s t (fluxEmbedRows t)
        (fluxmapTrainOf ext p (fluxEmbedRows t))
        (fluxmapErrors ext p (fluxEmbedRows t) (fluxmapTrainOf ext p (fluxEmbedRows t)))
        bk = .ok (s2, rep) := by
  simp only [fluxmap, ht] at h
  cases he : (t.getCol "flux_embed_0").isNone with
  | true => simp [he] at h
  | false =>
    rw [he] at h
    simp only [Bool.false_eq_true, if_false] at h
    by_cases hts : 1 < p.trainSize
    · simp [hts] at h
    · simp only [hts, if_false] at h
      by_cases hlen : 1 < p.nClusters.length
      · simp only [hlen, if_true] at h
        cases hk : ext.knee p.nClusters (fluxmapErrors ext p (fluxEmbedRows t)
            (fluxmapTrainOf ext p (fluxEmbedRows t))) with
        | none =>
          rw [hk] at h
          left
          simp only [Except.ok.injEq, Prod.mk.injEq] at h
          exact ⟨h.1.symm, h.2.symm⟩
        | some bk =>
          rw [hk] at h
          exact Or.inr ⟨bk, h⟩
      · simp only [hlen, if_false] at h
        cases hcl : p.nClusters with
        | nil => rw [hcl] at h; simp at h
        | cons k ks =>
          rw [hcl] at h
          exact Or.inr ⟨k, h⟩

/-- Report fields of a successful assignment tail. -/
theorem fluxmapAssign_ok_report (ext : FluxmapExt) (p : FluxmapParams)
    (s : SData) (t : Table) (E train : List (List ℚ)) (errs : List ℚ) (bk : ℕ)
    (s2 : SData) (rep : FluxmapReport)
    (h : fluxmapAssign ext p s t E train errs bk = .ok (s2, rep)) :
    rep.trainSet = train ∧ rep.quantErrors = errs ∧
    ∃ ls : List ℕ, rep.outcome = .assigned bk ls := by
  simp only [fluxmapAssign] at h
  split at h
  · simp at h
  · split at h
    · simp at h
    · simp only [Except.ok.injEq, Prod.mk.injEq] at h
      obtain ⟨_, hrep⟩ := h
      refine ⟨?_, ?_, ?_⟩ <;> rw [← hrep]
      exact ⟨_, rfl⟩

/-- Anatomy of a successful assignment tail: the outcome labels, their count
and range, and the raster table actually stored, under the interface contracts
of the two spatial joins. -/
theorem fluxmapAssign_ok_anatomy (ext : FluxmapExt) (p : FluxmapParams)
    (s : SData) (t : Table) (E train : List (List ℚ)) (errs : List ℚ) (bk : ℕ)
    (s2 : SData) (rep : FluxmapReport)
    (hsjp : SjoinPointsOk ext.sjoinPoints)
    (hsjs : SjoinShapesOk ext.sjoinShapes)
    (hne : rasterKeyOf p.instanceKey ≠ p.pointsKey)
    (h : fluxmapAssign ext p s t E train errs bk = .ok (s2, rep)) :
    ∃ ls : List ℕ, rep.outcome = .assigned bk ls ∧
      ls.length = E.length ∧ (∀ l ∈ ls, 1 ≤ l ∧ l ≤ bk) ∧
      s2.getPoints (rasterKeyOf p.instanceKey)
        = some (t.setCol "fluxmap" (ls.map (fun l => Val.num (l : ℚ)))) := by
  simp only [fluxmapAssign] at h
  split at h
  · simp at h
  · rename_i hg
    split at h
    · simp at h
    · rename_i tp hp
      simp only [Except.ok.injEq, Prod.mk.injEq] at h
      obtain ⟨hs2, hrep⟩ := h
      refine ⟨(E.map (ext.somTrain bk (train.headD []).length p.numIterations
        p.randomState train).winner).map (fun j => j + 1), ?_, by simp, ?_, ?_⟩
      · rw [← hrep]
      · intro l hl
        obtain ⟨j, hj, rfl⟩ := List.mem_map.mp hl
        have hjlt : ¬ bk ≤ j := by
          intro hbk
          exact hg (List.any_eq_true.mpr ⟨j, hj, decide_eq_true hbk⟩)
        omega
      · rw [← hs2, hsjs, hsjp _ _ _ _ hne,
          getPoints_setPoints_ne _ _ _ _ hne]
        simp only [SData.getPoints, SData.setPoints]
        rw [alistGet_set_self]

/-- C6: for every candidate cluster count, the quantization error recorded for
model selection is evaluated against the full pixel-embedding set read back
from the raster table, not merely the training subsample, even when
train_size < 1. -/
theorem fluxmap_qe_on_full_set (ext : FluxmapExt) (p : FluxmapParams)
    (s s2 : SData) (rep : FluxmapReport) (t : Table)
    (ht : s.getPoints (rasterKeyOf p.instanceKey) = some t)
    (hts : p.trainSize < 1)
    (hrun : fluxmap ext p s = .ok (s2, rep)) :
    rep.trainSet = fluxmapTrainOf ext p (fluxEmbedRows t) ∧
    rep.quantErrors = p.nClusters.map (fun k =>
      (ext.somTrain k (rep.trainSet.headD []).length p.numIterations p.randomState
        rep.trainSet).quantError (fluxEmbedRows t)) := by
  rcases fluxmap_ok_split ext p s s2 rep t ht hrun with ⟨_, hrep⟩ | ⟨bk, hass⟩
  · subst hrep
    exact ⟨rfl, rfl⟩
  · obtain ⟨h1, h2, _⟩ := fluxmapAssign_ok_report ext p s t _ _ _ bk s2 rep hass
    refine ⟨h1, ?_⟩
    rw [h2, h1]
    rfl

/-- C7: when fluxmap succeeds with winning cluster count best_k, every raster
pixel is assigned exactly one integer label, each equal to its winning
(nearest-prototype) unit index plus 1, so every stored label lies in
{1..best_k} - a subset of {0} with {1..k} - and 0 is never assigned; the
raster table is persisted with exactly this label column. -/
theorem fluxmap_labels_range (ext : FluxmapExt) (p : FluxmapParams)
    (s s2 : SData) (rep : FluxmapReport) (t : Table) (bk : ℕ) (ls : List ℕ)
    (ht : s.getPoints (rasterKeyOf p.instanceKey) = some t)
    (hsjp : SjoinPointsOk ext.sjoinPoints)
    (hsjs : SjoinShapesOk ext.sjoinShapes)
    (hne : rasterKeyOf p.instanceKey ≠ p.pointsKey)
    (hrun : fluxmap ext p s = .ok (s2, rep))
    (hout : rep.outcome = .assigned bk ls) :
    ls.length = (fluxEmbedRows t).length ∧
    (∀ l ∈ ls, 1 ≤ l ∧ l ≤ bk) ∧
    s2.getPoints (rasterKeyOf p.instanceKey)
      = some (t.setCol "fluxmap" (ls.map (fun l => Val.num (l : ℚ)))) := by
  rcases fluxmap_ok_split ext p s s2 rep t ht hrun with ⟨_, hrep⟩ | ⟨bk2, hass⟩
  · rw [hrep] at hout
    simp at hout
  · obtain ⟨ls2, hout2, hlen, hbound, hstore⟩ :=
      fluxmapAssign_ok_anatomy ext p s t _ _ _ bk2 s2 rep hsjp hsjs hne hass
    rw [hout2] at hout
    simp only [FluxmapOutcome.assigned.injEq] at hout
    obtain ⟨hbk, hls⟩ := hout
    subst hbk
    subst hls
    exact ⟨hlen, hbound, hstore⟩

/-- C5 (amended): fluxmap's train_size handling: a value above 1 fails at once
with "train_size must be less than 1." before any SOM training or state
change; exactly 1 trains on the full pixel-embedding set; below 1 trains on a
subsample of floor(train_size * n_pixels) rows drawn WITH replacement -
sklearn resample's default, since the call at line 345 does not pass
replace=False. -/
theorem fluxmap_train_size_spec (ext : FluxmapExt) (p : FluxmapParams)
    (s : SData) (t : Table)
    (ht : s.getPoints (rasterKeyOf p.instanceKey) = some t)
    (hemb : (t.getCol "flux_embed_0").isSome)
    (hdraw : DrawOk ext.drawWith) :
    (1 < p.trainSize → fluxmap ext p s = .error "train_size must be less than 1.") ∧
    (p.trainSize = 1 → fluxmapTrainOf ext p (fluxEmbedRows t) = fluxEmbedRows t) ∧
    (p.trainSize < 1 → 0 < (fluxEmbedRows t).length →
      (fluxmapTrainOf ext p (fluxEmbedRows t)).length
        = (pyInt (p.trainSize * ((fluxEmbedRows t).length : ℚ))).toNat ∧
      ∀ r ∈ fluxmapTrainOf ext p (fluxEmbedRows t), r ∈ fluxEmbedRows t) := by
  obtain ⟨v, hv⟩ := Option.isSome_iff_exists.mp hemb
  refine ⟨fun h => ?_, fun h => ?_, fun h hlen => ?_⟩
  · simp [fluxmap, ht, hv, h]
  · simp [fluxmapTrainOf, h]
  · have hne1 : p.trainSize ≠ 1 := ne_of_lt h
    constructor
    · rw [fluxmapTrainOf, if_neg hne1, sampleRows,
        length_filterMap_get? _ _ (fun i hi => (hdraw p.randomState _ _).2 i hi hlen)]
      exact (hdraw p.randomState _ _).1
    · intro r hr
      rw [fluxmapTrainOf, if_neg hne1, sampleRows] at hr
      exact mem_filterMap_get? _ _ _ hr

theorem extFm_drawOk : DrawOk extFm.drawWith := by
  intro seed n len
  constructor
  · simp [extFm]
  · intro i hi hlen
    simp only [extFm, List.mem_replicate] at hi
    omega

theorem extFm_sjpOk : SjoinPointsOk extFm.sjoinPoints := fun _ _ _ _ _ => rfl

theorem extFm_sjsOk : SjoinShapesOk extFm.sjoinShapes := fun _ _ _ _ => rfl

/-- The pixel-embedding rows read back from the concrete raster table. -/
theorem cFmT_rows : fluxEmbedRows cFmT = [[0], [1], [2]] := by
  have h1 : strStarts "x" "flux_embed_" = false := by decide
  have h2 : strStarts "y" "flux_embed_" = false := by decide
  have h3 : strStarts "cell_boundaries" "flux_embed_" = false := by decide
  have h4 : strStarts "flux_embed_0" "flux_embed_" = true := by decide
  norm_num [fluxEmbedRows, cFmT, filterCols, h1, h2, h3, h4, sortByKey,
    insertByKey, colsToRows, valNum, List.range_succ, List.getD]

/-- The concrete training set: two draws of row 0, with replacement. -/
theorem cFm_train_eval :
    fluxmapTrainOf extFm cFmP (fluxEmbedRows cFmT) = [[0], [0]] := by
  rw [cFmT_rows]
  have h2 : (2 : ℤ).toNat = 2 := rfl
  norm_num [fluxmapTrainOf, cFmP, extFm, sampleRows, pyInt, h2,
    List.replicate_succ]
  simp [List.filterMap_cons]

/-- The same training set under the single-candidate parameters. -/
theorem cFm_train_eval1 :
    fluxmapTrainOf extFm cFmP1 (fluxEmbedRows cFmT) = [[0], [0]] := by
  rw [cFmT_rows]
  have h2 : (2 : ℤ).toNat = 2 := rfl
  norm_num [fluxmapTrainOf, cFmP1, extFm, sampleRows, pyInt, h2,
    List.replicate_succ]
  simp [List.filterMap_cons]

/-- The concrete raster table seen through the container. -/
theorem cFmS_raster : cFmS.getPoints (rasterKeyOf "cell_boundaries") = some cFmT := by
  have hk : rasterKeyOf "cell_boundaries" = "cell_boundaries_raster" := by decide
  simp [cFmS, SData.getPoints, alistGet, hk]

/-- The embedding column is present in the concrete raster table. -/
theorem cFmT_emb : (cFmT.getCol "flux_embed_0").isSome := by decide

/-- C5 counterexample: with train_size = 2/3 over three distinct pixel
embeddings, the training set produced through sklearn resample's default
replace=True holds the row [0] twice - a multiset no without-replacement draw
of the pixel rows can produce - refuting the claim's "drawn without
replacement"; the index stream satisfies the with-replacement contract and the
subsample still has the claimed size floor(2/3 * 3) = 2. -/
theorem fluxmap_train_with_replacement_cex :
    DrawOk extFm.drawWith ∧
    cFmP.trainSize = 2/3 ∧
    fluxmapTrainOf extFm cFmP (fluxEmbedRows cFmT) = [[0], [0]] ∧
    ¬ List.Subperm (fluxmapTrainOf extFm cFmP (fluxEmbedRows cFmT))
        (fluxEmbedRows cFmT) := by
  refine ⟨extFm_drawOk, rfl, cFm_train_eval, ?_⟩
  rw [cFm_train_eval, cFmT_rows]
  intro hsub
  have hcount := hsub.count_le [0]
  norm_num [List.count_cons] at hcount

/-- Evaluation of the successful single-candidate fluxmap run. -/
theorem cFm_run_eval :
    fluxmap extFm cFmP1 cFmS
      = .ok (cFmS2, ⟨[[0], [0]], [0], .assigned 2 [1, 1, 1]⟩) := by
  have h1 : strStarts "x" "flux_embed_" = false := by decide
  have h2 : strStarts "y" "flux_embed_" = false := by decide
  have h3 : strStarts "cell_boundaries" "flux_embed_" = false := by decide
  have h4 : strStarts "flux_embed_0" "flux_embed_" = true := by decide
  have h5 : strStarts "x" "fluxmap" = false := by decide
  have hk : rasterKeyOf "cell_boundaries" = "cell_boundaries_raster" := by decide
  have htn : (2 : ℤ).toNat = 2 := rfl
  norm_num [fluxmap, fluxmapAssign, fluxmapErrors, fluxmapTrainOf, fluxEmbedRows,
    sampleRows, pyInt, htn, cFmS, cFmS2, cFmT, cFmT2, cFmP1, extFm,
    SData.getPoints, SData.setPoints, Table.getCol, Table.setCol, alistGet,
    alistSet, hk, h1, h2, h3, h4, h5, filterCols, sortByKey, insertByKey,
    colsToRows, valNum, List.range_succ, List.getD, List.replicate_succ,
    List.filterMap_cons, noElbowMsg]
  simp [h1, h2, h3, h4, h5, filterCols, sortByKey, insertByKey, embedIndexOf,
    valNum, List.range_succ, List.getD, alistSet, alistGet]

/-- Witness for C2: the concrete two-candidate run with the no-elbow detector
returns the container unchanged together with the no-elbow report. -/
theorem fluxmap_no_elbow_aborts_witness :
    fluxmap extFm cFmP cFmS = .ok (cFmS,
      ⟨fluxmapTrainOf extFm cFmP (fluxEmbedRows cFmT),
       fluxmapErrors extFm cFmP (fluxEmbedRows cFmT)
         (fluxmapTrainOf extFm cFmP (fluxEmbedRows cFmT)),
       .noElbow noElbowMsg⟩) := by
  refine fluxmap_no_elbow_aborts extFm cFmP cFmS cFmT cFmS_raster cFmT_emb ?_ ?_ rfl
  · norm_num [cFmP]
  · norm_num [cFmP]

/-- Witness for C5 amended, at the concrete raster table and 2/3 train size. -/
theorem fluxmap_train_size_spec_witness :
    (1 < cFmP.trainSize → fluxmap extFm cFmP cFmS
      = .error "train_size must be less than 1.") ∧
    (cFmP.trainSize = 1 → fluxmapTrainOf extFm cFmP (fluxEmbedRows cFmT)
      = fluxEmbedRows cFmT) ∧
    (cFmP.trainSize < 1 → 0 < (fluxEmbedRows cFmT).length →
      (fluxmapTrainOf extFm cFmP (fluxEmbedRows cFmT)).length
        = (pyInt (cFmP.trainSize * ((fluxEmbedRows cFmT).length : ℚ))).toNat ∧
      ∀ r ∈ fluxmapTrainOf extFm cFmP (fluxEmbedRows cFmT), r ∈ fluxEmbedRows cFmT) :=
  fluxmap_train_size_spec extFm cFmP cFmS cFmT cFmS_raster cFmT_emb extFm_drawOk

/-- Witness for C6: in the successful concrete run (train size 2/3), the
recorded quantization errors use the full three-row pixel set. -/
theorem fluxmap_qe_on_full_set_witness :
    (⟨[[0], [0]], [0], .assigned 2 [1, 1, 1]⟩ : FluxmapReport).trainSet
      = fluxmapTrainOf extFm cFmP1 (fluxEmbedRows cFmT) ∧
    (⟨[[0], [0]], [0], .assigned 2 [1, 1, 1]⟩ : FluxmapReport).quantErrors
      = cFmP1.nClusters.map (fun k =>
        (extFm.somTrain k
          ((⟨[[0], [0]], [0], .assigned 2 [1, 1, 1]⟩ : FluxmapReport).trainSet.headD []).length
          cFmP1.numIterations cFmP1.randomState
          (⟨[[0], [0]], [0], .assigned 2 [1, 1, 1]⟩ : FluxmapReport).trainSet).quantError
            (fluxEmbedRows cFmT)) :=
  fluxmap_qe_on_full_set extFm cFmP1 cFmS cFmS2
    ⟨[[0], [0]], [0], .assigned 2 [1, 1, 1]⟩ cFmT cFmS_raster
    (by norm_num [cFmP1]) cFm_run_eval

/-- Witness for C7: in the successful concrete run with best_k = 2, all three
pixels carry label 1, inside the range 1..2, and the stored raster table holds
exactly that label column. -/
theorem fluxmap_labels_range_witness :
    ([1, 1, 1] : List ℕ).length = (fluxEmbedRows cFmT).length ∧
    (∀ l ∈ ([1, 1, 1] : List ℕ), 1 ≤ l ∧ l ≤ 2) ∧
    cFmS2.getPoints (rasterKeyOf cFmP1.instanceKey)
      = some (cFmT.setCol "fluxmap"
        (([1, 1, 1] : List ℕ).map (fun l => Val.num (l : ℚ)))) :=
  fluxmap_labels_range extFm cFmP1 cFmS cFmS2
    ⟨[[0], [0]], [0], .assigned 2 [1, 1, 1]⟩ cFmT 2 [1, 1, 1] cFmS_raster
    extFm_sjpOk extFm_sjsOk (by decide) cFm_run_eval rfl

end Bento
